import Mathlib

/-!
Shallow embedding of the call-handling server (server.py): the decision-tree
conversation engine, the per-call relay state, and the two websocket read
loops, together with theorems checking the specified properties.
-/

namespace InsuranceServer

/-! ## ASCII model of the Python string operations used by the source -/

/-- Lowercase one ASCII character, as Python str.lower does on ASCII input. -/
def lowerChar (c : Char) : Char :=
  if ('A' ≤ c && c ≤ 'Z') then Char.ofNat (c.toNat + 32) else c

/-- Model of Python str.lower restricted to ASCII text. -/
def pyLower (s : String) : String := ⟨s.data.map lowerChar⟩

/-- Does the first character list start the second one? -/
def startsWithChars : List Char → List Char → Bool
  | [], _ => true
  | _ :: _, [] => false
  | a :: as, b :: bs => a == b && startsWithChars as bs

/-- Substring occurrence over character lists. -/
def hasSubChars (needle : List Char) : List Char → Bool
  | [] => startsWithChars needle []
  | c :: rest => startsWithChars needle (c :: rest) || hasSubChars needle rest

/-- Model of the Python membership test `needle in hay` on strings. -/
def pyContains (needle hay : String) : Bool := hasSubChars needle.data hay.data

/-- Model of Python str.capitalize: first character uppercased, rest lowered. -/
def pyCapitalize (s : String) : String :=
  match s.data with
  | [] => ""
  | c :: rest => ⟨(if ('a' ≤ c && c ≤ 'z') then Char.ofNat (c.toNat - 32) else c) :: rest.map lowerChar⟩

/-! ## Decision tree flows (server.py lines 71-94) -/

/-- One entry of a flow: a question key and the prompt text. -/
structure QItem where
  name : String
  question : String
deriving DecidableEq

def mainFlow : List QItem := [
  ⟨"policyId", "First, can you please tell me your policy ID?"⟩,
  ⟨"claimType", "Great, now please describe the nature of your claim: Car accident, theft, or vandalism?"⟩]

def carAccidentFlow : List QItem := [
  ⟨"alcoholInvolvement", "Was there any alcohol involved? (yes/no/details)"⟩,
  ⟨"accidentSeverity", "How severe was the accident? (minor, moderate, total loss?)"⟩,
  ⟨"accidentInjuries", "Were there any injuries? If so, please describe briefly."⟩,
  ⟨"accidentComplete", "Thanks. Anything else you\x27d like to add about the accident?"⟩]

def theftFlow : List QItem := [
  ⟨"theftLocation", "Where did the theft occur? (parking lot, street, home, etc.)"⟩,
  ⟨"theftItemsStolen", "Which items or parts were stolen?"⟩,
  ⟨"theftPoliceReport", "Have you filed a police report? If yes, do you have a report number?"⟩,
  ⟨"theftComplete", "Anything else you wish to add about this theft?"⟩]

def vandalismFlow : List QItem := [
  ⟨"vandalismDetails", "Please describe the vandalism (e.g., broken windows, spray paint)."⟩,
  ⟨"vandalismPoliceReport", "Did you report this vandalism to authorities? If so, any reference?"⟩,
  ⟨"vandalismComplete", "Understood. Anything else to add regarding this vandalism incident?"⟩]

/-- The subFlow value stored in the state: a name and a flow array. -/
structure SubFlow where
  name : String
  flowArray : List QItem
deriving DecidableEq

def carSubFlow : SubFlow := ⟨"carAccidentFlow", carAccidentFlow⟩
def theftSubFlow : SubFlow := ⟨"theftFlow", theftFlow⟩
def vandalismSubFlow : SubFlow := ⟨"vandalismFlow", vandalismFlow⟩

/-- Claim-type keyword cascade from handleUserResponse (lines 197-206):
lowercase the answer, then check car, theft, vandal in that order. -/
def classifyClaimType (userText : String) : Option SubFlow :=
  let claimType := pyLower userText
  if pyContains "car" claimType then some carSubFlow
  else if pyContains "theft" claimType then some theftSubFlow
  else if pyContains "vandal" claimType then some vandalismSubFlow
  else none

/-! ## Conversation state (the dict built on the start event, lines 395-400) -/

structure ConvState where
  decisionTreeStep : Nat
  subFlow : Option SubFlow
  subFlowStep : Nat
  conversationData : List (String × String)
deriving DecidableEq

def initConvState : ConvState := ⟨0, none, 0, []⟩

/-- Python dict assignment d[k] = v: update in place when the key exists
(keeping its position), else append at the end. -/
def dictInsert : List (String × String) → String → String → List (String × String)
  | [], k, v => [(k, v)]
  | (k0, v0) :: rest, k, v =>
    if k0 == k then (k0, v) :: rest else (k0, v0) :: dictInsert rest k v

/-- Python dict lookup d.get(k). -/
def dictLookup (k : String) : List (String × String) → Option String
  | [] => none
  | (k0, v0) :: rest => if k0 == k then some v0 else dictLookup k rest

/-! ## Observable outbound effects of the handlers -/

/-- Every outbound send or file append the handlers perform. -/
inductive Send where
  | conversationItemCreate (text : String)
  | responseCreate
  | mediaToTwilio (sid : Option String) (payload : String)
  | markToTwilio (sid : String)
  | clearToTwilio (sid : String)
  | truncateToOpenAI (itemId : String) (contentIndex : Nat) (audioEndMs : Int)
  | audioAppendToOpenAI (payload : String)
  | transcriptWrite (line : String)
deriving DecidableEq

/-- sendAssistantMessage (lines 104-120): a conversation.item.create carrying
the text followed by a response.create. -/
def sendAssistantMessage (text : String) : List Send :=
  [Send.conversationItemCreate text, Send.responseCreate]

/-! ## Decision tree logic (lines 126-234) -/

/-- The summary string built by finalizeClaim (lines 130-135). -/
def claimSummary (conversationData : List (String × String)) : String :=
  (conversationData.foldl
    (fun acc kv => acc ++ "- " ++ kv.1 ++ ": " ++ kv.2 ++ "\n")
    "Here is the summary of your claim:\n")
  ++ "Thank you! We\x27ll store these details. Have a wonderful day!"

/-- finalizeClaim on the state of the current call (lines 126-137). -/
def finalizeClaimState (st : ConvState) : List Send :=
  sendAssistantMessage (claimSummary st.conversationData)

/-- askNextQuestion body once the state has been fetched (lines 148-171). -/
def askNextQuestionState (st : ConvState) : List Send :=
  if st.decisionTreeStep < mainFlow.length then
    sendAssistantMessage ((mainFlow.getD st.decisionTreeStep ⟨"", ""⟩).question)
  else
    match st.subFlow with
    | none => sendAssistantMessage "We have minimal details for your claim. Anything else to add? Otherwise say \x27done\x27."
    | some sf =>
      if st.subFlowStep < sf.flowArray.length then
        sendAssistantMessage ((sf.flowArray.getD st.subFlowStep ⟨"", ""⟩).question)
      else
        finalizeClaimState st

/-- handleUserResponse body once the state has been fetched (lines 186-234).
Returns the updated state and the sends performed (including those of the
askNextQuestion or finalizeClaim call made on the mutated state). -/
def handleUserResponseState (st : ConvState) (userText : String) : ConvState × List Send :=
  if st.decisionTreeStep < mainFlow.length then
    let questionObj := mainFlow.getD st.decisionTreeStep ⟨"", ""⟩
    let data := dictInsert st.conversationData questionObj.name userText
    let sub := if questionObj.name == "claimType" then classifyClaimType userText else st.subFlow
    let st' : ConvState := ⟨st.decisionTreeStep + 1, sub, st.subFlowStep, data⟩
    (st', askNextQuestionState st')
  else
    match st.subFlow with
    | none =>
      if pyContains "done" (pyLower userText) then (st, finalizeClaimState st)
      else (st, sendAssistantMessage "Noted. Anything else? Or say \x27done\x27 to finalize.")
    | some sf =>
      if st.subFlowStep < sf.flowArray.length then
        let questionObj := sf.flowArray.getD st.subFlowStep ⟨"", ""⟩
        let st' : ConvState := ⟨st.decisionTreeStep, st.subFlow, st.subFlowStep + 1,
          dictInsert st.conversationData questionObj.name userText⟩
        (st', askNextQuestionState st')
      else
        if pyContains "done" (pyLower userText) then (st, finalizeClaimState st)
        else (st, sendAssistantMessage "We have most details. Say \x27done\x27 to finalize or add more info.")

/-- Lookup in the conversationStates map keyed by streamSid. -/
def convLookup (sid : String) : List (String × ConvState) → Option ConvState
  | [] => none
  | (s0, st0) :: rest => if s0 == sid then some st0 else convLookup sid rest

/-- Store a state under a streamSid key, replacing an existing entry. -/
def convUpdate (sid : String) (st : ConvState) : List (String × ConvState) → List (String × ConvState)
  | [] => [(sid, st)]
  | (s0, st0) :: rest => if s0 == sid then (s0, st) :: rest else (s0, st0) :: convUpdate sid st rest

/-- handleUserResponse at the map level (lines 174-234): fetch the state for
the streamSid; when absent, return with no sends and no mutation. -/
def handleUserResponse (m : List (String × ConvState)) (sid : String) (userText : String) :
    List (String × ConvState) × List Send :=
  match convLookup sid m with
  | none => (m, [])
  | some st =>
    let r := handleUserResponseState st userText
    (convUpdate sid r.1 m, r.2)

/-- askNextQuestion at the map level (lines 140-171). -/
def askNextQuestion (m : List (String × ConvState)) (sid : String) : List Send :=
  match convLookup sid m with
  | none => []
  | some st => askNextQuestionState st

/-- Run handleUserResponseState over a list of user utterances, collecting the
sends of each call. -/
def runConversation (st : ConvState) : List String → ConvState × List (List Send)
  | [] => (st, [])
  | t :: rest =>
    let r := handleUserResponseState st t
    let rr := runConversation r.1 rest
    (rr.1, r.2 :: rr.2)

/-! ## Per-call relay state (the locals of media_stream_endpoint, lines 273-279,
together with the conversationStates map) -/

structure CallState where
  streamSid : Option String
  latestMediaTimestamp : Int
  lastAssistantItem : Option String
  markQueue : List String
  responseStartTimestampTwilio : Option Int
  conversationStates : List (String × ConvState)
deriving DecidableEq

def initCallState : CallState := ⟨none, 0, none, [], none, []⟩

/-- send_mark (lines 527-542): when a streamSid is present, send a mark event
and append the marker name to the queue; otherwise do nothing. -/
def sendMark (streamSid : Option String) (markQueue : List String) : List String × List Send :=
  match streamSid with
  | some sid => (markQueue ++ ["responsePart"], [Send.markToTwilio sid])
  | none => (markQueue, [])

/-- handle_speech_started_event (lines 545-578). The function receives only
getters for the timing fields, so the state it returns is the input state:
it sends a truncate instruction when a last assistant item is recorded and a
clear instruction when a streamSid is present, and mutates nothing. -/
def handleSpeechStartedEvent (cs : CallState) : CallState × List Send :=
  match cs.responseStartTimestampTwilio with
  | none => (cs, [])
  | some responseStartTs =>
    let elapsedTime := cs.latestMediaTimestamp - responseStartTs
    let truncateSends :=
      match cs.lastAssistantItem with
      | some lastItem => [Send.truncateToOpenAI lastItem 0 elapsedTime]
      | none => []
    let clearSends :=
      match cs.streamSid with
      | some sid => [Send.clearToTwilio sid]
      | none => []
    (cs, truncateSends ++ clearSends)

/-! ## The speech-service (OpenAI) read loop (lines 441-521) -/

/-- Parsed inbound events from the speech service. An audioDelta with none
models an absent or empty (hence falsy) delta field; itemCreate carries the
role and the already-joined content text. -/
inductive OpenAIEvent where
  | audioDelta (delta : Option String)
  | itemCreate (role : String) (combinedText : String)
  | speechStarted
  | otherEvent
deriving DecidableEq

/-- Processing of one parsed speech-service event (the body of the async for
loop, lines 465-518). -/
def openaiMessageStep (cs : CallState) (ev : OpenAIEvent) : CallState × List Send :=
  match ev with
  | .audioDelta delta =>
    let deltaSends :=
      match delta with
      | some d => [Send.mediaToTwilio cs.streamSid d]
      | none => []
    let r := sendMark cs.streamSid cs.markQueue
    ({ cs with markQueue := r.1 }, deltaSends ++ r.2)
  | .itemCreate role combinedText =>
    if role == "user" || role == "assistant" then
      let transcriptSends := [Send.transcriptWrite (pyCapitalize role ++ ": " ++ combinedText)]
      if role == "user" then
        match cs.streamSid with
        | some sid =>
          let r := handleUserResponse cs.conversationStates sid combinedText
          ({ cs with conversationStates := r.1 }, transcriptSends ++ r.2)
        | none => (cs, transcriptSends)
      else (cs, transcriptSends)
    else (cs, [])
  | .speechStarted => handleSpeechStartedEvent cs
  | .otherEvent => (cs, [])

/-- handle_openai_messages over a list of raw inbound messages. A raw message
is either malformed JSON (Option.none) or a parsed event. The parse failure is
caught inside the loop (lines 458-462): it is logged and the loop continues. -/
def handleOpenaiMessages (cs : CallState) : List (Option OpenAIEvent) → CallState
  | [] => cs
  | Option.none :: rest => handleOpenaiMessages cs rest
  | some ev :: rest => handleOpenaiMessages (openaiMessageStep cs ev).1 rest

/-! ## The telephony (Twilio) read loop (lines 369-438) -/

/-- Parsed inbound events from the telephony leg. -/
inductive TwilioEvent where
  | start (sid : String)
  | media (payload : String) (timestamp : Int)
  | mark
  | stop
  | otherEvent
deriving DecidableEq

/-- Processing of one parsed telephony event (lines 390-435). -/
def twilioMessageStep (cs : CallState) (ev : TwilioEvent) : CallState × List Send :=
  match ev with
  | .start sid =>
    ({ cs with streamSid := some sid,
               conversationStates := convUpdate sid initConvState cs.conversationStates },
     [Send.transcriptWrite ("\n--- New call started: streamSid=" ++ sid ++ " ---\n")])
  | .media payload timestamp =>
    ({ cs with latestMediaTimestamp := timestamp }, [Send.audioAppendToOpenAI payload])
  | .mark =>
    match cs.markQueue with
    | [] => (cs, [])
    | _ :: rest => ({ cs with markQueue := rest }, [])
  | .stop =>
    match cs.streamSid with
    | some sid => (cs, [Send.transcriptWrite ("--- Call ended: streamSid=" ++ sid ++ " ---\n\n")])
    | none => (cs, [])
  | .otherEvent => (cs, [])

/-- Outcome of the telephony read loop: a normal return (stop event or no more
messages) or an uncaught json decode failure that terminates the loop. -/
inductive TwilioLoopResult where
  | normal (cs : CallState)
  | jsonFailure (cs : CallState)
deriving DecidableEq

/-- handle_twilio_messages over a list of raw inbound messages. json.loads is
not guarded inside this loop (line 388): a malformed message (Option.none)
raises, the exception is not a WebSocketDisconnect, and the loop terminates
without processing later messages. A stop event returns normally. -/
def handleTwilioMessages (cs : CallState) : List (Option TwilioEvent) → TwilioLoopResult
  | [] => .normal cs
  | Option.none :: _ => .jsonFailure cs
  | some TwilioEvent.stop :: _ => .normal (twilioMessageStep cs TwilioEvent.stop).1
  | some ev :: rest => handleTwilioMessages (twilioMessageStep cs ev).1 rest

/-! ## Helper lemmas -/

theorem dictLookup_dictInsert (d : List (String × String)) (k v : String) :
    dictLookup k (dictInsert d k v) = some v := by
  induction d with
  | nil => simp [dictInsert, dictLookup]
  | cons kv rest ih =>
    obtain ⟨k0, v0⟩ := kv
    by_cases h : k0 == k
    · simp [dictInsert, dictLookup, h]
    · simp only [dictInsert, dictLookup, h, Bool.false_eq_true, if_false, if_neg]
      simpa [dictLookup, h] using ih

/-! ## Claim theorems -/

/-- C1: with responseStartTimestampTwilio set (4200), latestMediaTimestamp 5000,
a recorded last assistant item and a pending mark, the speech-started handler
does send the truncate instruction at offset 800 and the buffer clear, but it
returns the state unchanged: responseStartTimestampTwilio is still 4200 and the
mark queue still holds a marker, contradicting the claimed reset. -/
theorem c1_speech_started_no_reset :
    handleSpeechStartedEvent ⟨some "MZ123", 5000, some "item_1", ["responsePart"], some 4200, []⟩
      = (⟨some "MZ123", 5000, some "item_1", ["responsePart"], some 4200, []⟩,
         [Send.truncateToOpenAI "item_1" 0 800, Send.clearToTwilio "MZ123"])
    ∧ (handleSpeechStartedEvent ⟨some "MZ123", 5000, some "item_1", ["responsePart"], some 4200, []⟩).1.responseStartTimestampTwilio
      = some 4200
    ∧ (handleSpeechStartedEvent ⟨some "MZ123", 5000, some "item_1", ["responsePart"], some 4200, []⟩).1.markQueue
      ≠ [] := by
  refine ⟨rfl, rfl, ?_⟩
  decide

/-- C2: an assistant audio delta arriving while responseStartTimestampTwilio is
unset forwards the payload to the telephony leg and appends a marker to the
mark queue, but leaves responseStartTimestampTwilio unset (none) instead of
setting it to the current latestMediaTimestamp (5000) as the claim states. -/
theorem c2_audio_delta_timestamp_unset :
    openaiMessageStep ⟨some "MZ123", 5000, none, [], none, []⟩ (OpenAIEvent.audioDelta (some "AAAA"))
      = (⟨some "MZ123", 5000, none, ["responsePart"], none, []⟩,
         [Send.mediaToTwilio (some "MZ123") "AAAA", Send.markToTwilio "MZ123"])
    ∧ (openaiMessageStep ⟨some "MZ123", 5000, none, [], none, []⟩
        (OpenAIEvent.audioDelta (some "AAAA"))).1.responseStartTimestampTwilio = none := by
  exact ⟨rfl, rfl⟩

/-- C3 counterexample: with latestMediaTimestamp 100 and
responseStartTimestampTwilio 200 the handler sends audio_end_ms = -100,
a negative value, not the claimed clamped 0. -/
theorem c3_negative_offset_sent :
    (handleSpeechStartedEvent ⟨some "MZ9", 100, some "item_9", [], some 200, []⟩).2
      = [Send.truncateToOpenAI "item_9" 0 (-100), Send.clearToTwilio "MZ9"]
    ∧ ((-100 : Int) < 0) := by
  exact ⟨rfl, by decide⟩

/-- C3 amended: the truncate offset sent by the speech-started handler is the
raw difference latestMediaTimestamp - responseStartTimestampTwilio, with no
clamping: when the difference is negative it is sent as a negative value. -/
theorem c3_offset_is_raw_difference (cs : CallState) (ts : Int) (lastItem : String)
    (h1 : cs.responseStartTimestampTwilio = some ts)
    (h2 : cs.lastAssistantItem = some lastItem) :
    (handleSpeechStartedEvent cs).2.head?
      = some (Send.truncateToOpenAI lastItem 0 (cs.latestMediaTimestamp - ts))
    ∧ (handleSpeechStartedEvent cs).1 = cs := by
  unfold handleSpeechStartedEvent
  rw [h1, h2]
  cases cs.streamSid <;> simp

/-- C3 witness: the amended statement evaluated at a concrete state in which
the difference is negative. -/
theorem c3_offset_witness :
    (handleSpeechStartedEvent ⟨some "MZ1", 700, some "itemA", [], some 1000, []⟩).2.head?
      = some (Send.truncateToOpenAI "itemA" 0 (-300)) := by
  have h := c3_offset_is_raw_difference ⟨some "MZ1", 700, some "itemA", [], some 1000, []⟩
    1000 "itemA" rfl rfl
  simpa using h.1

/-- C4 counterexample: a malformed telephony message terminates the telephony
read loop with an uncaught json failure; the following media event is never
processed (the timestamp stays 0), while without the malformed message the
loop processes it and returns normally. -/
theorem c4_twilio_malformed_terminates :
    handleTwilioMessages initCallState [Option.none, some (TwilioEvent.media "AAAA" 7)]
      = TwilioLoopResult.jsonFailure initCallState
    ∧ handleTwilioMessages initCallState [some (TwilioEvent.media "AAAA" 7)]
      = TwilioLoopResult.normal ⟨none, 7, none, [], none, []⟩
    ∧ TwilioLoopResult.jsonFailure initCallState
      ≠ TwilioLoopResult.normal ⟨none, 7, none, [], none, []⟩ := by
  refine ⟨rfl, rfl, ?_⟩
  decide

/-- C4 amended: malformed inbound JSON is skipped (loop continues, state
untouched) only on the speech-service connection; on the telephony connection
it raises and terminates that read loop. -/
theorem c4_malformed_json_split (cs : CallState)
    (rest1 : List (Option OpenAIEvent)) (rest2 : List (Option TwilioEvent)) :
    handleOpenaiMessages cs (Option.none :: rest1) = handleOpenaiMessages cs rest1
    ∧ handleTwilioMessages cs (Option.none :: rest2) = TwilioLoopResult.jsonFailure cs := by
  exact ⟨rfl, rfl⟩

/-- C5: the subFlow field is assigned exactly at the step that answers the
claim-type question (decisionTreeStep = 1, the index of the claimType entry)
and is otherwise preserved by every call; at that step the claimType answer is
recorded; and the main-step counter never decreases, so the assigning step is
never revisited. -/
theorem c5_branch_assigned_once (st : ConvState) (t : String) :
    ((handleUserResponseState st t).1.subFlow
        = if st.decisionTreeStep = 1 then classifyClaimType t else st.subFlow)
    ∧ dictLookup "claimType"
        (handleUserResponseState ⟨1, st.subFlow, st.subFlowStep, st.conversationData⟩ t).1.conversationData
        = some t
    ∧ st.decisionTreeStep ≤ (handleUserResponseState st t).1.decisionTreeStep := by
  obtain ⟨dt, sf, sfs, data⟩ := st
  have hlen : mainFlow.length = 2 := rfl
  refine ⟨?_, ?_, ?_⟩
  · match dt with
    | 0 => rfl
    | 1 => rfl
    | n + 2 =>
      cases sf with
      | none =>
        simp only [handleUserResponseState]
        rw [if_neg (by omega : ¬ (n + 2 < mainFlow.length))]
        split <;> rfl
      | some f =>
        simp only [handleUserResponseState]
        rw [if_neg (by omega : ¬ (n + 2 < mainFlow.length))]
        split
        · rfl
        · split <;> rfl
  · exact dictLookup_dictInsert data "claimType" t
  · match dt with
    | 0 => exact Nat.zero_le _
    | 1 => exact Nat.le_succ 1
    | n + 2 =>
      cases sf with
      | none =>
        simp only [handleUserResponseState]
        rw [if_neg (by omega : ¬ (n + 2 < mainFlow.length))]
        split <;> exact Nat.le_refl _
      | some f =>
        simp only [handleUserResponseState]
        rw [if_neg (by omega : ¬ (n + 2 < mainFlow.length))]
        split
        · exact Nat.le_refl _
        · split <;> exact Nat.le_refl _

/-- C6: claim-type classification is a case-insensitive substring test with
fixed priority car, then theft, then vandalism, then no branch; in particular
the answer containing both car and theft keywords classifies as car. -/
theorem c6_classification_priority (t : String) :
    (pyContains "car" (pyLower t) = true → classifyClaimType t = some carSubFlow)
    ∧ (pyContains "car" (pyLower t) = false → pyContains "theft" (pyLower t) = true →
        classifyClaimType t = some theftSubFlow)
    ∧ (pyContains "car" (pyLower t) = false → pyContains "theft" (pyLower t) = false →
        pyContains "vandal" (pyLower t) = true → classifyClaimType t = some vandalismSubFlow)
    ∧ (pyContains "car" (pyLower t) = false → pyContains "theft" (pyLower t) = false →
        pyContains "vandal" (pyLower t) = false → classifyClaimType t = none)
    ∧ classifyClaimType "Car theft" = some carSubFlow := by
  refine ⟨?_, ?_, ?_, ?_, by decide⟩ <;> intros <;> simp_all [classifyClaimType]

/-- C6 witness: the classification evaluated at answers that exercise the
priority order and the case-insensitive matching. -/
theorem c6_classification_witness :
    classifyClaimType "Car theft" = some carSubFlow
    ∧ classifyClaimType "VANDALIZED mailbox" = some vandalismSubFlow := by
  refine ⟨(c6_classification_priority "Car theft").1 (by decide), ?_⟩
  exact (c6_classification_priority "VANDALIZED mailbox").2.2.1 (by decide) (by decide) (by decide)

/-- C7: the input sequence POL123, car accident, no, minor, no injuries, done
drives a fresh conversation to the finalize summary, with branch car and
exactly the six answers policyId, claimType, alcoholInvolvement,
accidentSeverity, accidentInjuries, accidentComplete in insertion order. -/
theorem c7_end_to_end_car_scenario :
    (runConversation initConvState
        ["POL123", "car accident", "no", "minor", "no injuries", "done"]).1
      = ⟨2, some carSubFlow, 4,
         [("policyId", "POL123"), ("claimType", "car accident"),
          ("alcoholInvolvement", "no"), ("accidentSeverity", "minor"),
          ("accidentInjuries", "no injuries"), ("accidentComplete", "done")]⟩
    ∧ (runConversation initConvState
        ["POL123", "car accident", "no", "minor", "no injuries", "done"]).2.getLast?
      = some [Send.conversationItemCreate
          "Here is the summary of your claim:\n- policyId: POL123\n- claimType: car accident\n- alcoholInvolvement: no\n- accidentSeverity: minor\n- accidentInjuries: no injuries\n- accidentComplete: done\nThank you! We\x27ll store these details. Have a wonderful day!",
          Send.responseCreate] := by
  exact ⟨rfl, rfl⟩

/-- C8: when the main sequence is exhausted and no branch was recognized,
free text containing done (case-insensitively) finalizes the claim and any
other free text gets the say-done fallback prompt; the state is returned
unchanged in both cases. -/
theorem c8_free_text_fallback (st : ConvState) (t : String)
    (h1 : mainFlow.length ≤ st.decisionTreeStep) (h2 : st.subFlow = none) :
    handleUserResponseState st t
      = (st, if pyContains "done" (pyLower t) then finalizeClaimState st
             else sendAssistantMessage "Noted. Anything else? Or say \x27done\x27 to finalize.") := by
  unfold handleUserResponseState
  rw [if_neg (Nat.not_lt.mpr h1)]
  simp only [h2]
  split <;> rfl

/-- C8 witness: from a state past the main sequence with no branch, the
weather digression yields the fallback prompt and leaves the state unchanged,
while the answer Done finalizes. -/
theorem c8_free_text_witness :
    handleUserResponseState ⟨2, none, 0, [("policyId", "P1")]⟩ "let\x27s talk about weather"
      = (⟨2, none, 0, [("policyId", "P1")]⟩,
         sendAssistantMessage "Noted. Anything else? Or say \x27done\x27 to finalize.")
    ∧ handleUserResponseState ⟨2, none, 0, [("policyId", "P1")]⟩ "Done"
      = (⟨2, none, 0, [("policyId", "P1")]⟩,
         finalizeClaimState ⟨2, none, 0, [("policyId", "P1")]⟩) := by
  constructor
  · rw [c8_free_text_fallback ⟨2, none, 0, [("policyId", "P1")]⟩ "let\x27s talk about weather"
      (by decide) rfl]
    rw [if_neg (by decide)]
  · rw [c8_free_text_fallback ⟨2, none, 0, [("policyId", "P1")]⟩ "Done" (by decide) rfl]
    rw [if_pos (by decide)]

/-- C9: when the stream id has no registered conversation state, both the
user-response handler and the next-question prompter return with no outbound
sends and with the conversation map unchanged. -/
theorem c9_unknown_stream_noop (m : List (String × ConvState)) (sid t : String)
    (h : convLookup sid m = none) :
    handleUserResponse m sid t = (m, []) ∧ askNextQuestion m sid = [] := by
  unfold handleUserResponse askNextQuestion
  rw [h]
  exact ⟨rfl, rfl⟩

/-- C9 witness: the handlers evaluated on an empty map at a stream id that was
never registered. -/
theorem c9_unknown_stream_witness :
    handleUserResponse [] "MZ404" "hello" = ([], [])
    ∧ askNextQuestion [] "MZ404" = [] :=
  c9_unknown_stream_noop [] "MZ404" "hello" rfl

/-- C10: a telephony mark acknowledgment arriving when the mark queue is empty
is processed without popping, without raising, with no sends, and with the
whole call state unchanged. -/
theorem c10_mark_on_empty_queue (cs : CallState) (h : cs.markQueue = []) :
    twilioMessageStep cs TwilioEvent.mark = (cs, []) := by
  unfold twilioMessageStep
  rw [h]

/-- C10 witness: the mark event evaluated at a concrete state with an empty
mark queue. -/
theorem c10_mark_witness :
    twilioMessageStep ⟨some "MZ7", 42, none, [], none, []⟩ TwilioEvent.mark
      = (⟨some "MZ7", 42, none, [], none, []⟩, []) :=
  c10_mark_on_empty_queue ⟨some "MZ7", 42, none, [], none, []⟩ rfl

end InsuranceServer
